import Mathlib

/-!
Shallow embedding of the matlab-cpp-wrapper library (header-only C++ wrapper
around MATLAB's native mx/mex C ABI) and proofs about the claims on it.

Native pointers (mxArray*, const char* buffers) are modelled as natural
numbers, with 0 playing the role of the null pointer.  The behaviour of the
wrapped native library (mxGetNumberOfDimensions, mxDuplicateArray, ...) is
not part of this repository; each native entry point is modelled as a field
of an environment structure, so that the theorems quantify over every
possible behaviour of the native side.  C++ exceptions are modelled with
Except: a function that may throw returns an Except value whose error part
carries the Exception's identifier and message.

The C++ class mx::Array is called MxArray here, because the name Array is
taken by the Lean prelude.  Member functions keep their source names.
-/

namespace MatlabW

/-- A native pointer.  0 is the null pointer. -/
abbrev Ptr := Nat

/-- mx::Exception (Exception.hpp, not under src/): it is constructed either
as Exception{msg} or as Exception{id, msg}; we record the optional
identifier and the message. -/
structure Exn where
  id : Option String
  msg : String
deriving DecidableEq, Repr

/-- mx::Array (src/include/matlabw/mx/Array.hpp): holds a single owned
mxArray pointer, default-initialised to null (member mArray). -/
structure MxArray where
  mArray : Ptr
deriving DecidableEq, Repr

/-- Array::isValid (Array.hpp line 245): mArray != nullptr. -/
def MxArray.isValid (a : MxArray) : Bool :=
  a.mArray != 0

/-- Array::checkValid (Array.hpp line 633): throws
Exception{id, "accessing invalid array"} when !isValid().  The thrown
exception is returned as a value (none = no throw). -/
def MxArray.checkValid (a : MxArray) (id : String) : Option Exn :=
  if !a.isValid then some ⟨some id, "accessing invalid array"⟩ else none

/-- The pattern shared by every introspection member of Array:
checkValid(id); return nativeValue;  -/
def MxArray.afterCheck (a : MxArray) (id : String) (v : α) : Except Exn α :=
  match a.checkValid id with
  | some e => .error e
  | none => .ok v

/-- The native mx introspection entry points used by Array.hpp.  Each field
models one function of the wrapped C ABI applied to an mxArray pointer; the
repository does not define them, so the theorems quantify over all
environments. -/
structure MxEnv where
  mxGetNumberOfDimensions : Ptr → Nat
  mxGetDimensions : Ptr → Ptr
  mxGetM : Ptr → Nat
  mxGetN : Ptr → Nat
  mxGetNumberOfElements : Ptr → Nat
  mxGetElementSize : Ptr → Nat
  mxIsNumeric : Ptr → Bool
  mxIsComplex : Ptr → Bool
  mxIsEmpty : Ptr → Bool
  mxIsScalar : Ptr → Bool
  mxIsDouble : Ptr → Bool
  mxIsSingle : Ptr → Bool
  mxIsInt8 : Ptr → Bool
  mxIsUint8 : Ptr → Bool
  mxIsInt16 : Ptr → Bool
  mxIsUint16 : Ptr → Bool
  mxIsInt32 : Ptr → Bool
  mxIsUint32 : Ptr → Bool
  mxIsInt64 : Ptr → Bool
  mxIsUint64 : Ptr → Bool
  mxIsSparse : Ptr → Bool
  mxIsChar : Ptr → Bool
  mxIsLogical : Ptr → Bool
  mxIsLogicalScalar : Ptr → Bool
  mxIsLogicalScalarTrue : Ptr → Bool
  mxIsStruct : Ptr → Bool
  mxIsCell : Ptr → Bool
  mxGetClassID : Ptr → Nat
  mxGetClassName : Ptr → String
  mxGetData : Ptr → Ptr

/-- mx::View over the dimensions (returned by Array::getDims): a data
pointer paired with an element count. -/
structure DimsView where
  data : Ptr
  size : Nat
deriving DecidableEq, Repr

/-- Array::getRank (Array.hpp line 161). -/
def MxArray.getRank (env : MxEnv) (a : MxArray) : Except Exn Nat :=
  a.afterCheck "matlabw:mx:Array:getRank" (env.mxGetNumberOfDimensions a.mArray)

/-- Array::getDims (Array.hpp line 171): View{mxGetDimensions(mArray), getRank()};
under the validity already established, getRank() is mxGetNumberOfDimensions. -/
def MxArray.getDims (env : MxEnv) (a : MxArray) : Except Exn DimsView :=
  a.afterCheck "matlabw:mx:Array:getDims"
    ⟨env.mxGetDimensions a.mArray, env.mxGetNumberOfDimensions a.mArray⟩

/-- Array::getDimM (Array.hpp line 181). -/
def MxArray.getDimM (env : MxEnv) (a : MxArray) : Except Exn Nat :=
  a.afterCheck "matlabw:mx:Array:getDimM" (env.mxGetM a.mArray)

/-- Array::getDimN (Array.hpp line 191). -/
def MxArray.getDimN (env : MxEnv) (a : MxArray) : Except Exn Nat :=
  a.afterCheck "matlabw:mx:Array:getDimN" (env.mxGetN a.mArray)

/-- Array::getSize (Array.hpp line 201). -/
def MxArray.getSize (env : MxEnv) (a : MxArray) : Except Exn Nat :=
  a.afterCheck "matlabw:mx:Array:getSize" (env.mxGetNumberOfElements a.mArray)

/-- Array::getSizeOfElement (Array.hpp line 211). -/
def MxArray.getSizeOfElement (env : MxEnv) (a : MxArray) : Except Exn Nat :=
  a.afterCheck "matlabw:mx:Array:getSizeOfElement" (env.mxGetElementSize a.mArray)

/-- Array::isNumeric (Array.hpp line 266). -/
def MxArray.isNumeric (env : MxEnv) (a : MxArray) : Except Exn Bool :=
  a.afterCheck "matlabw:mx:Array:isNumeric" (env.mxIsNumeric a.mArray)

/-- Array::isComplex (Array.hpp line 276). -/
def MxArray.isComplex (env : MxEnv) (a : MxArray) : Except Exn Bool :=
  a.afterCheck "matlabw:mx:Array:isComplex" (env.mxIsComplex a.mArray)

/-- Array::isEmpty (Array.hpp line 286). -/
def MxArray.isEmpty (env : MxEnv) (a : MxArray) : Except Exn Bool :=
  a.afterCheck "matlabw:mx:Array:isEmpty" (env.mxIsEmpty a.mArray)

/-- Array::isScalar (Array.hpp line 296). -/
def MxArray.isScalar (env : MxEnv) (a : MxArray) : Except Exn Bool :=
  a.afterCheck "matlabw:mx:Array:isScalar" (env.mxIsScalar a.mArray)

/-- Array::isDouble (Array.hpp line 306). -/
def MxArray.isDouble (env : MxEnv) (a : MxArray) : Except Exn Bool :=
  a.afterCheck "matlabw:mx:Array:isDouble" (env.mxIsDouble a.mArray)

/-- Array::isSingle (Array.hpp line 316). -/
def MxArray.isSingle (env : MxEnv) (a : MxArray) : Except Exn Bool :=
  a.afterCheck "matlabw:mx:Array:isSingle" (env.mxIsSingle a.mArray)

/-- Array::isInt8 (Array.hpp line 326). -/
def MxArray.isInt8 (env : MxEnv) (a : MxArray) : Except Exn Bool :=
  a.afterCheck "matlabw:mx:Array:isInt8" (env.mxIsInt8 a.mArray)

/-- Array::isUint8 (Array.hpp line 336). -/
def MxArray.isUint8 (env : MxEnv) (a : MxArray) : Except Exn Bool :=
  a.afterCheck "matlabw:mx:Array:isUint8" (env.mxIsUint8 a.mArray)

/-- Array::isInt16 (Array.hpp line 346). -/
def MxArray.isInt16 (env : MxEnv) (a : MxArray) : Except Exn Bool :=
  a.afterCheck "matlabw:mx:Array:isInt16" (env.mxIsInt16 a.mArray)

/-- Array::isUint16 (Array.hpp line 356). -/
def MxArray.isUint16 (env : MxEnv) (a : MxArray) : Except Exn Bool :=
  a.afterCheck "matlabw:mx:Array:isUint16" (env.mxIsUint16 a.mArray)

/-- Array::isInt32 (Array.hpp line 366). -/
def MxArray.isInt32 (env : MxEnv) (a : MxArray) : Except Exn Bool :=
  a.afterCheck "matlabw:mx:Array:isInt32" (env.mxIsInt32 a.mArray)

/-- Array::isUint32 (Array.hpp line 376). -/
def MxArray.isUint32 (env : MxEnv) (a : MxArray) : Except Exn Bool :=
  a.afterCheck "matlabw:mx:Array:isUint32" (env.mxIsUint32 a.mArray)

/-- Array::isInt64 (Array.hpp line 386). -/
def MxArray.isInt64 (env : MxEnv) (a : MxArray) : Except Exn Bool :=
  a.afterCheck "matlabw:mx:Array:isInt64" (env.mxIsInt64 a.mArray)

/-- Array::isUint64 (Array.hpp line 396). -/
def MxArray.isUint64 (env : MxEnv) (a : MxArray) : Except Exn Bool :=
  a.afterCheck "matlabw:mx:Array:isUint64" (env.mxIsUint64 a.mArray)

/-- Array::isSparse (Array.hpp line 406). -/
def MxArray.isSparse (env : MxEnv) (a : MxArray) : Except Exn Bool :=
  a.afterCheck "matlabw:mx:Array:isSparse" (env.mxIsSparse a.mArray)

/-- Array::isChar (Array.hpp line 416). -/
def MxArray.isChar (env : MxEnv) (a : MxArray) : Except Exn Bool :=
  a.afterCheck "matlabw:mx:Array:isChar" (env.mxIsChar a.mArray)

/-- Array::isLogical (Array.hpp line 426). -/
def MxArray.isLogical (env : MxEnv) (a : MxArray) : Except Exn Bool :=
  a.afterCheck "matlabw:mx:Array:isLogical" (env.mxIsLogical a.mArray)

/-- Array::isLogicalScalar (Array.hpp line 436). -/
def MxArray.isLogicalScalar (env : MxEnv) (a : MxArray) : Except Exn Bool :=
  a.afterCheck "matlabw:mx:Array:isLogicalScalar" (env.mxIsLogicalScalar a.mArray)

/-- Array::isLogicalScalarTrue (Array.hpp line 446). -/
def MxArray.isLogicalScalarTrue (env : MxEnv) (a : MxArray) : Except Exn Bool :=
  a.afterCheck "matlabw:mx:Array:isLogicalScalarTrue" (env.mxIsLogicalScalarTrue a.mArray)

/-- Array::isStruct (Array.hpp line 483). -/
def MxArray.isStruct (env : MxEnv) (a : MxArray) : Except Exn Bool :=
  a.afterCheck "matlabw:mx:Array:isStruct" (env.mxIsStruct a.mArray)

/-- Array::isCell (Array.hpp line 493). -/
def MxArray.isCell (env : MxEnv) (a : MxArray) : Except Exn Bool :=
  a.afterCheck "matlabw:mx:Array:isCell" (env.mxIsCell a.mArray)

/-- Array::getClassId (Array.hpp line 503); the ClassId enumeration value is
modelled by the underlying integer of the static_cast from mxClassID. -/
def MxArray.getClassId (env : MxEnv) (a : MxArray) : Except Exn Nat :=
  a.afterCheck "matlabw:mx:Array:getClassId" (env.mxGetClassID a.mArray)

/-- Array::getClassName (Array.hpp line 513); the returned C string is
modelled by its contents. -/
def MxArray.getClassName (env : MxEnv) (a : MxArray) : Except Exn String :=
  a.afterCheck "matlabw:mx:Array:getClassName" (env.mxGetClassName a.mArray)

/-- Array::getData (Array.hpp lines 523 and 533; the const and non-const
overloads forward to the same mxGetData call). -/
def MxArray.getData (env : MxEnv) (a : MxArray) : Except Exn Ptr :=
  a.afterCheck "matlabw:mx:Array:getData" (env.mxGetData a.mArray)

/-- Claim C1: for every introspection operation on an Array (getRank, getDims,
getDimM, getDimN, getSize, getSizeOfElement, the nullary is* predicates,
getClassId, getClassName, getData), if the Array holds a null pointer
(isValid() is false) the operation throws an Exception, and otherwise it
returns exactly the value of the corresponding native mx function applied to
the held pointer.  (isValid itself is the validity test and throws nothing;
isClass takes a class-name argument besides the pointer, so it is not a
single-pointer forward and is outside this enumeration.) -/
theorem c1_introspection_forwarding (env : MxEnv) (a : MxArray) :
    (a.isValid = false →
      a.getRank env = .error ⟨some "matlabw:mx:Array:getRank", "accessing invalid array"⟩ ∧
      a.getDims env = .error ⟨some "matlabw:mx:Array:getDims", "accessing invalid array"⟩ ∧
      a.getDimM env = .error ⟨some "matlabw:mx:Array:getDimM", "accessing invalid array"⟩ ∧
      a.getDimN env = .error ⟨some "matlabw:mx:Array:getDimN", "accessing invalid array"⟩ ∧
      a.getSize env = .error ⟨some "matlabw:mx:Array:getSize", "accessing invalid array"⟩ ∧
      a.getSizeOfElement env =
        .error ⟨some "matlabw:mx:Array:getSizeOfElement", "accessing invalid array"⟩ ∧
      a.isNumeric env = .error ⟨some "matlabw:mx:Array:isNumeric", "accessing invalid array"⟩ ∧
      a.isComplex env = .error ⟨some "matlabw:mx:Array:isComplex", "accessing invalid array"⟩ ∧
      a.isEmpty env = .error ⟨some "matlabw:mx:Array:isEmpty", "accessing invalid array"⟩ ∧
      a.isScalar env = .error ⟨some "matlabw:mx:Array:isScalar", "accessing invalid array"⟩ ∧
      a.isDouble env = .error ⟨some "matlabw:mx:Array:isDouble", "accessing invalid array"⟩ ∧
      a.isSingle env = .error ⟨some "matlabw:mx:Array:isSingle", "accessing invalid array"⟩ ∧
      a.isInt8 env = .error ⟨some "matlabw:mx:Array:isInt8", "accessing invalid array"⟩ ∧
      a.isUint8 env = .error ⟨some "matlabw:mx:Array:isUint8", "accessing invalid array"⟩ ∧
      a.isInt16 env = .error ⟨some "matlabw:mx:Array:isInt16", "accessing invalid array"⟩ ∧
      a.isUint16 env = .error ⟨some "matlabw:mx:Array:isUint16", "accessing invalid array"⟩ ∧
      a.isInt32 env = .error ⟨some "matlabw:mx:Array:isInt32", "accessing invalid array"⟩ ∧
      a.isUint32 env = .error ⟨some "matlabw:mx:Array:isUint32", "accessing invalid array"⟩ ∧
      a.isInt64 env = .error ⟨some "matlabw:mx:Array:isInt64", "accessing invalid array"⟩ ∧
      a.isUint64 env = .error ⟨some "matlabw:mx:Array:isUint64", "accessing invalid array"⟩ ∧
      a.isSparse env = .error ⟨some "matlabw:mx:Array:isSparse", "accessing invalid array"⟩ ∧
      a.isChar env = .error ⟨some "matlabw:mx:Array:isChar", "accessing invalid array"⟩ ∧
      a.isLogical env = .error ⟨some "matlabw:mx:Array:isLogical", "accessing invalid array"⟩ ∧
      a.isLogicalScalar env =
        .error ⟨some "matlabw:mx:Array:isLogicalScalar", "accessing invalid array"⟩ ∧
      a.isLogicalScalarTrue env =
        .error ⟨some "matlabw:mx:Array:isLogicalScalarTrue", "accessing invalid array"⟩ ∧
      a.isStruct env = .error ⟨some "matlabw:mx:Array:isStruct", "accessing invalid array"⟩ ∧
      a.isCell env = .error ⟨some "matlabw:mx:Array:isCell", "accessing invalid array"⟩ ∧
      a.getClassId env = .error ⟨some "matlabw:mx:Array:getClassId", "accessing invalid array"⟩ ∧
      a.getClassName env =
        .error ⟨some "matlabw:mx:Array:getClassName", "accessing invalid array"⟩ ∧
      a.getData env = .error ⟨some "matlabw:mx:Array:getData", "accessing invalid array"⟩) ∧
    (a.isValid = true →
      a.getRank env = .ok (env.mxGetNumberOfDimensions a.mArray) ∧
      a.getDims env = .ok ⟨env.mxGetDimensions a.mArray, env.mxGetNumberOfDimensions a.mArray⟩ ∧
      a.getDimM env = .ok (env.mxGetM a.mArray) ∧
      a.getDimN env = .ok (env.mxGetN a.mArray) ∧
      a.getSize env = .ok (env.mxGetNumberOfElements a.mArray) ∧
      a.getSizeOfElement env = .ok (env.mxGetElementSize a.mArray) ∧
      a.isNumeric env = .ok (env.mxIsNumeric a.mArray) ∧
      a.isComplex env = .ok (env.mxIsComplex a.mArray) ∧
      a.isEmpty env = .ok (env.mxIsEmpty a.mArray) ∧
      a.isScalar env = .ok (env.mxIsScalar a.mArray) ∧
      a.isDouble env = .ok (env.mxIsDouble a.mArray) ∧
      a.isSingle env = .ok (env.mxIsSingle a.mArray) ∧
      a.isInt8 env = .ok (env.mxIsInt8 a.mArray) ∧
      a.isUint8 env = .ok (env.mxIsUint8 a.mArray) ∧
      a.isInt16 env = .ok (env.mxIsInt16 a.mArray) ∧
      a.isUint16 env = .ok (env.mxIsUint16 a.mArray) ∧
      a.isInt32 env = .ok (env.mxIsInt32 a.mArray) ∧
      a.isUint32 env = .ok (env.mxIsUint32 a.mArray) ∧
      a.isInt64 env = .ok (env.mxIsInt64 a.mArray) ∧
      a.isUint64 env = .ok (env.mxIsUint64 a.mArray) ∧
      a.isSparse env = .ok (env.mxIsSparse a.mArray) ∧
      a.isChar env = .ok (env.mxIsChar a.mArray) ∧
      a.isLogical env = .ok (env.mxIsLogical a.mArray) ∧
      a.isLogicalScalar env = .ok (env.mxIsLogicalScalar a.mArray) ∧
      a.isLogicalScalarTrue env = .ok (env.mxIsLogicalScalarTrue a.mArray) ∧
      a.isStruct env = .ok (env.mxIsStruct a.mArray) ∧
      a.isCell env = .ok (env.mxIsCell a.mArray) ∧
      a.getClassId env = .ok (env.mxGetClassID a.mArray) ∧
      a.getClassName env = .ok (env.mxGetClassName a.mArray) ∧
      a.getData env = .ok (env.mxGetData a.mArray)) := by
  constructor
  · intro h
    simp [MxArray.getRank, MxArray.getDims, MxArray.getDimM, MxArray.getDimN,
      MxArray.getSize, MxArray.getSizeOfElement, MxArray.isNumeric, MxArray.isComplex,
      MxArray.isEmpty, MxArray.isScalar, MxArray.isDouble, MxArray.isSingle,
      MxArray.isInt8, MxArray.isUint8, MxArray.isInt16, MxArray.isUint16,
      MxArray.isInt32, MxArray.isUint32, MxArray.isInt64, MxArray.isUint64,
      MxArray.isSparse, MxArray.isChar, MxArray.isLogical, MxArray.isLogicalScalar,
      MxArray.isLogicalScalarTrue, MxArray.isStruct, MxArray.isCell,
      MxArray.getClassId, MxArray.getClassName, MxArray.getData,
      MxArray.afterCheck, MxArray.checkValid, h]
  · intro h
    simp [MxArray.getRank, MxArray.getDims, MxArray.getDimM, MxArray.getDimN,
      MxArray.getSize, MxArray.getSizeOfElement, MxArray.isNumeric, MxArray.isComplex,
      MxArray.isEmpty, MxArray.isScalar, MxArray.isDouble, MxArray.isSingle,
      MxArray.isInt8, MxArray.isUint8, MxArray.isInt16, MxArray.isUint16,
      MxArray.isInt32, MxArray.isUint32, MxArray.isInt64, MxArray.isUint64,
      MxArray.isSparse, MxArray.isChar, MxArray.isLogical, MxArray.isLogicalScalar,
      MxArray.isLogicalScalarTrue, MxArray.isStruct, MxArray.isCell,
      MxArray.getClassId, MxArray.getClassName, MxArray.getData,
      MxArray.afterCheck, MxArray.checkValid, h]

/-- A concrete native environment, used only to instantiate the
environment-polymorphic theorems at a specific input. -/
def testEnv : MxEnv where
  mxGetNumberOfDimensions := fun _ => 3
  mxGetDimensions := fun _ => 11
  mxGetM := fun _ => 1
  mxGetN := fun _ => 4
  mxGetNumberOfElements := fun _ => 4
  mxGetElementSize := fun _ => 8
  mxIsNumeric := fun _ => true
  mxIsComplex := fun _ => false
  mxIsEmpty := fun _ => false
  mxIsScalar := fun _ => false
  mxIsDouble := fun _ => true
  mxIsSingle := fun _ => false
  mxIsInt8 := fun _ => false
  mxIsUint8 := fun _ => false
  mxIsInt16 := fun _ => false
  mxIsUint16 := fun _ => false
  mxIsInt32 := fun _ => false
  mxIsUint32 := fun _ => false
  mxIsInt64 := fun _ => false
  mxIsUint64 := fun _ => false
  mxIsSparse := fun _ => false
  mxIsChar := fun _ => false
  mxIsLogical := fun _ => false
  mxIsLogicalScalar := fun _ => false
  mxIsLogicalScalarTrue := fun _ => false
  mxIsStruct := fun _ => false
  mxIsCell := fun _ => false
  mxGetClassID := fun _ => 6
  mxGetClassName := fun _ => "double"
  mxGetData := fun _ => 21

/-- Witness for C1 at a concrete environment, a null handle and a non-null
handle. -/
theorem c1_introspection_forwarding_witness :
    ((MxArray.mk 0).isValid = false ∧
      MxArray.getRank testEnv ⟨0⟩ =
        .error ⟨some "matlabw:mx:Array:getRank", "accessing invalid array"⟩) ∧
    ((MxArray.mk 7).isValid = true ∧ MxArray.getRank testEnv ⟨7⟩ = .ok 3) :=
  ⟨⟨rfl, ((c1_introspection_forwarding testEnv ⟨0⟩).1 rfl).1⟩,
    ⟨rfl, ((c1_introspection_forwarding testEnv ⟨7⟩).2 rfl).1⟩⟩

/-! ## Lifetime of an Array: mxDuplicateArray / mxDestroyArray pairing

The copy operations and the destructor of mx::Array are modelled as steps
over the owned pointer, recording the trace of native calls they make.  The
result of each mxDuplicateArray call is supplied by an oracle indexed by a
call counter, so the theorems quantify over every possible behaviour of the
native allocator, including failure (a null result). -/

/-- One native lifetime-management call made by mx::Array. -/
inductive NCall
  | dup (arg res : Ptr)
  | destroy (arg : Ptr)
deriving DecidableEq, Repr

/-- Results of the successive mxDuplicateArray calls (0 models a null
return, which Array::duplicateArray turns into an exception). -/
structure DupOracle where
  res : Nat → Ptr

/-- Outcome of one copy-assignment step: the exception thrown if any, the
pointer held afterwards, the native calls made, and the new call counter. -/
structure AssignResult where
  err : Option Exn
  mArray : Ptr
  calls : List NCall
  k : Nat

/-- Array::operator= from Array, ArrayRef and ArrayCref (Array.hpp lines 98,
114, 130; the three overloads have identical bodies and differ only in the
type that supplies the source pointer).  When get() == other.get() nothing
happens.  Otherwise destroy() runs first (mxDestroyArray(release()), which
nulls mArray), then mArray = duplicateArray(other.get()): a null source
yields null without any native call (Array.hpp line 650), and a null
mxDuplicateArray result throws "failed to duplicate array" (line 656) after
the old array has already been destroyed, leaving mArray null. -/
def copyAssign (o : DupOracle) (k : Nat) (owned src : Ptr) : AssignResult :=
  if owned = src then ⟨none, owned, [], k⟩
  else if src = 0 then ⟨none, 0, [.destroy owned], k⟩
  else
    let r := o.res k
    if r = 0 then
      ⟨some ⟨none, "failed to duplicate array"⟩, 0, [.destroy owned, .dup src 0], k + 1⟩
    else ⟨none, r, [.destroy owned, .dup src r], k + 1⟩

/-- The native calls made by a constructed Array holding owned, across a
sequence of copy assignments (one source pointer each) followed by the
destructor (~Array, Array.hpp line 88, which runs destroy() even on a null
handle; mxDestroyArray on null is recorded but filtered as a no-op below).
If an assignment throws, the remaining operations are skipped and the
destructor still runs, as for any constructed C++ object. -/
def runOps (o : DupOracle) : Nat → Ptr → List Ptr → List NCall
  | _, owned, [] => [.destroy owned]
  | k, owned, src :: rest =>
    let s := copyAssign o k owned src
    match s.err with
    | some _ => s.calls ++ [.destroy s.mArray]
    | none => s.calls ++ runOps o s.k s.mArray rest

/-- A full lifetime: copy construction from a source pointer (Array.hpp
lines 59, 67, 75; src = 0 also covers the default constructor, since
duplicateArray of null is null with no native call), then copy assignments,
then the destructor.  If construction itself throws, no object exists and no
destructor runs. -/
def runLifetime (o : DupOracle) (src : Ptr) (ops : List Ptr) : List NCall :=
  if src = 0 then runOps o 0 0 ops
  else
    let r := o.res 0
    if r = 0 then [.dup src 0]
    else .dup src r :: runOps o 1 r ops

/-- The multiset of pointers returned by successful mxDuplicateArray calls
in a trace. -/
def dupResults (t : List NCall) : Multiset Ptr :=
  ↑(t.filterMap fun c => match c with
    | .dup _ r => if r = 0 then none else some r
    | .destroy _ => none)

/-- The multiset of non-null pointers passed to mxDestroyArray in a trace
(mxDestroyArray on null is a no-op). -/
def destroyedPtrs (t : List NCall) : Multiset Ptr :=
  ↑(t.filterMap fun c => match c with
    | .destroy p => if p = 0 then none else some p
    | .dup _ _ => none)

@[simp] theorem dupResults_nil : dupResults [] = 0 := rfl

@[simp] theorem destroyedPtrs_nil : destroyedPtrs [] = 0 := rfl

@[simp] theorem dupResults_cons_destroy (p : Ptr) (t : List NCall) :
    dupResults (.destroy p :: t) = dupResults t := by
  simp [dupResults]

@[simp] theorem dupResults_cons_dup (a r : Ptr) (t : List NCall) :
    dupResults (.dup a r :: t) = (if r = 0 then 0 else {r}) + dupResults t := by
  by_cases hr : r = 0 <;> simp [dupResults, hr, Multiset.singleton_add]

@[simp] theorem destroyedPtrs_cons_dup (a r : Ptr) (t : List NCall) :
    destroyedPtrs (.dup a r :: t) = destroyedPtrs t := by
  simp [destroyedPtrs]

@[simp] theorem destroyedPtrs_cons_destroy (p : Ptr) (t : List NCall) :
    destroyedPtrs (.destroy p :: t) = (if p = 0 then 0 else {p}) + destroyedPtrs t := by
  by_cases hp : p = 0 <;> simp [destroyedPtrs, hp, Multiset.singleton_add]

theorem dupResults_append (s t : List NCall) :
    dupResults (s ++ t) = dupResults s + dupResults t := by
  simp [dupResults, List.filterMap_append]

theorem destroyedPtrs_append (s t : List NCall) :
    destroyedPtrs (s ++ t) = destroyedPtrs s + destroyedPtrs t := by
  simp [destroyedPtrs, List.filterMap_append]

theorem runOps_skip (o : DupOracle) (k : Nat) (owned : Ptr) (rest : List Ptr) :
    runOps o k owned (owned :: rest) = runOps o k owned rest := by
  simp [runOps, copyAssign]

theorem runOps_null_src (o : DupOracle) (k : Nat) (owned : Ptr) (rest : List Ptr)
    (h1 : owned ≠ 0) :
    runOps o k owned (0 :: rest) = .destroy owned :: runOps o k 0 rest := by
  simp [runOps, copyAssign, h1]

theorem runOps_dup_fail (o : DupOracle) (k : Nat) (owned src : Ptr) (rest : List Ptr)
    (h1 : owned ≠ src) (h2 : src ≠ 0) (h3 : o.res k = 0) :
    runOps o k owned (src :: rest) = [.destroy owned, .dup src 0, .destroy 0] := by
  simp [runOps, copyAssign, h1, h2, h3]

theorem runOps_dup_ok (o : DupOracle) (k : Nat) (owned src : Ptr) (rest : List Ptr)
    (h1 : owned ≠ src) (h2 : src ≠ 0) (h3 : o.res k ≠ 0) :
    runOps o k owned (src :: rest) =
      .destroy owned :: .dup src (o.res k) :: runOps o (k + 1) (o.res k) rest := by
  simp [runOps, copyAssign, h1, h2, h3]

/-- Balance invariant: the pointers a constructed Array destroys over the
rest of its life are exactly the pointers its remaining duplications create,
plus the pointer it currently owns. -/
theorem runOps_balance (o : DupOracle) (ops : List Ptr) :
    ∀ k owned, destroyedPtrs (runOps o k owned ops) =
      dupResults (runOps o k owned ops) + (if owned = 0 then 0 else {owned}) := by
  induction ops with
  | nil =>
    intro k owned
    simp [runOps, add_comm]
  | cons src rest ih =>
    intro k owned
    by_cases h1 : owned = src
    · subst h1
      rw [runOps_skip]
      exact ih k owned
    · by_cases h2 : src = 0
      · subst h2
        rw [runOps_null_src o k owned rest h1]
        have h0 := ih k 0
        simp only [if_pos rfl, add_zero] at h0
        simp [h0]
        abel
      · by_cases h3 : o.res k = 0
        · rw [runOps_dup_fail o k owned src rest h1 h2 h3]
          simp [h3, add_comm]
        · rw [runOps_dup_ok o k owned src rest h1 h2 h3]
          have hr := ih (k + 1) (o.res k)
          simp only [if_neg h3] at hr
          simp [h3, hr]
          rw [← Multiset.singleton_add]
          abel

/-- A constructed Array's trace always ends with the destructor's
mxDestroyArray call. -/
theorem runOps_ends_destroy (o : DupOracle) (ops : List Ptr) :
    ∀ k owned, ∃ q t, runOps o k owned ops = t ++ [.destroy q] := by
  induction ops with
  | nil => intro k owned; exact ⟨owned, [], rfl⟩
  | cons src rest ih =>
    intro k owned
    by_cases h1 : owned = src
    · subst h1
      obtain ⟨q, t, h⟩ := ih k owned
      exact ⟨q, t, by rw [runOps_skip, h]⟩
    · by_cases h2 : src = 0
      · subst h2
        obtain ⟨q, t, h⟩ := ih k 0
        exact ⟨q, .destroy owned :: t, by rw [runOps_null_src o k owned rest h1, h]; rfl⟩
      · by_cases h3 : o.res k = 0
        · exact ⟨0, [.destroy owned, .dup src 0],
            by rw [runOps_dup_fail o k owned src rest h1 h2 h3]; rfl⟩
        · obtain ⟨q, t, h⟩ := ih (k + 1) (o.res k)
          exact ⟨q, .destroy owned :: .dup src (o.res k) :: t,
            by rw [runOps_dup_ok o k owned src rest h1 h2 h3, h]; rfl⟩

/-- Claim C2: copy construction and copy assignment obtain ownership by
calling mxDuplicateArray on the source pointer when it is non-null, throwing
when duplication returns null; the destructor always calls mxDestroyArray on
the owned pointer; and over any Array lifetime (construction, copy
assignments, destruction) the successful duplicate calls and the non-trivial
destroy calls pair one-to-one, so each owned pointer is destroyed exactly
once. -/
theorem c2_duplicate_destroy_pairing (o : DupOracle) (src : Ptr) (ops : List Ptr) :
    dupResults (runLifetime o src ops) = destroyedPtrs (runLifetime o src ops) ∧
    (src ≠ 0 → (runLifetime o src ops).head? = some (.dup src (o.res 0))) ∧
    (src ≠ 0 → o.res 0 = 0 → runLifetime o src ops = [.dup src 0]) ∧
    (src = 0 ∨ o.res 0 ≠ 0 → ∃ q t, runLifetime o src ops = t ++ [.destroy q]) := by
  refine ⟨?_, ?_, ?_, ?_⟩
  · by_cases h0 : src = 0
    · have := runOps_balance o ops 0 0
      simp [runLifetime, h0] at this ⊢
      simp [this]
    · by_cases hr : o.res 0 = 0
      · simp [runLifetime, h0, hr, dupResults, destroyedPtrs]
      · have := runOps_balance o ops 1 (o.res 0)
        simp [hr] at this
        have hcons : runLifetime o src ops = .dup src (o.res 0) :: runOps o 1 (o.res 0) ops := by
          simp [runLifetime, h0, hr]
        rw [hcons, show (NCall.dup src (o.res 0) :: runOps o 1 (o.res 0) ops) =
          [NCall.dup src (o.res 0)] ++ runOps o 1 (o.res 0) ops from rfl,
          dupResults_append, destroyedPtrs_append, this]
        simp [dupResults, destroyedPtrs, hr, add_comm]
  · intro h0
    by_cases hr : o.res 0 = 0 <;> simp [runLifetime, h0, hr]
  · intro h0 hr
    simp [runLifetime, h0, hr]
  · intro h
    by_cases h0 : src = 0
    · have := runOps_ends_destroy o ops 0 0
      simpa [runLifetime, h0] using this
    · have hr : o.res 0 ≠ 0 := by tauto
      obtain ⟨q, t, ht⟩ := runOps_ends_destroy o ops 1 (o.res 0)
      exact ⟨q, .dup src (o.res 0) :: t, by simp [runLifetime, h0, hr, ht]⟩

/-- Witness for C2: a lifetime that copy-constructs from pointer 1 (the
oracle duplicates it to 5), copy-assigns from pointer 2 (duplicated to 6),
and is destroyed; and a construction whose duplication fails. -/
theorem c2_duplicate_destroy_pairing_witness :
    (dupResults (runLifetime ⟨fun k => k + 5⟩ 1 [2]) =
      destroyedPtrs (runLifetime ⟨fun k => k + 5⟩ 1 [2])) ∧
    ((runLifetime ⟨fun k => k + 5⟩ 1 [2]).head? = some (.dup 1 5)) ∧
    (runLifetime ⟨fun _ => 0⟩ 1 [] = [.dup 1 0]) ∧
    (∃ q t, runLifetime ⟨fun k => k + 5⟩ 1 [2] = t ++ [.destroy q]) :=
  ⟨(c2_duplicate_destroy_pairing ⟨fun k => k + 5⟩ 1 [2]).1,
    (c2_duplicate_destroy_pairing ⟨fun k => k + 5⟩ 1 [2]).2.1 (by decide),
    (c2_duplicate_destroy_pairing ⟨fun _ => 0⟩ 1 []).2.2.1 (by decide) rfl,
    (c2_duplicate_destroy_pairing ⟨fun k => k + 5⟩ 1 [2]).2.2.2 (Or.inr (by decide))⟩

/-- Counterexample to C8: target owning pointer 1 is copy-assigned from
source pointer 2 while mxDuplicateArray fails (returns null); the assignment
throws, yet the target does not still own pointer 1: its old array was
destroyed before the duplication was attempted and it is left null. -/
theorem c8_counterexample :
    (copyAssign ⟨fun _ => 0⟩ 0 1 2).err = some ⟨none, "failed to duplicate array"⟩ ∧
    (copyAssign ⟨fun _ => 0⟩ 0 1 2).mArray ≠ 1 ∧
    (copyAssign ⟨fun _ => 0⟩ 0 1 2).calls = [.destroy 1, .dup 2 0] :=
  ⟨rfl, by decide, rfl⟩

/-- Claim C8 as amended: copy assignment is not atomic on error; if the
duplication throws, the target has already destroyed the array it held
before the assignment and is left holding the null pointer (isValid() false),
a destructible empty state, rather than its previous array. -/
theorem c8_assign_error_leaves_null (o : DupOracle) (k : Nat) (owned src : Ptr)
    (h : (copyAssign o k owned src).err.isSome) :
    (copyAssign o k owned src).mArray = 0 ∧
    (copyAssign o k owned src).calls = [.destroy owned, .dup src 0] ∧
    (copyAssign o k owned src).err = some ⟨none, "failed to duplicate array"⟩ := by
  by_cases h1 : owned = src
  · simp [copyAssign, h1] at h
  · by_cases h2 : src = 0
    · subst h2
      simp [copyAssign, h1] at h
    · by_cases h3 : o.res k = 0
      · simp [copyAssign, h1, h2, h3]
      · simp [copyAssign, h1, h2, h3] at h

/-- Witness for the amended C8 at the concrete failing assignment. -/
theorem c8_assign_error_leaves_null_witness :
    ((copyAssign ⟨fun _ => 0⟩ 0 1 2).err.isSome = true) ∧
    (copyAssign ⟨fun _ => 0⟩ 0 1 2).mArray = 0 :=
  ⟨rfl, (c8_assign_error_leaves_null ⟨fun _ => 0⟩ 0 1 2 rfl).1⟩

/-! ## Move semantics, release, and exclusive ownership

Coexisting Array objects are modelled as a pool: the entry at an index is
the pointer that object owns (0 = null handle). -/

/-- The Array object-lifecycle operations (Array.hpp).  copyCtor and
copyAssign carry the result r of the mxDuplicateArray call on their source
(0 when the source was null, in which case no native call happens, or when
duplication failed and the operation threw, leaving the target null). -/
inductive ArrOp
  | defaultCtor
  | adopt (q : Ptr)
  | copyCtor (r : Ptr)
  | moveCtor (i : Nat)
  | copyAssign (j i : Nat) (r : Ptr)
  | moveAssign (j i : Nat)
  | release (i : Nat)
  | dtor (i : Nat)

/-- One Array operation on the pool: the default constructor (line 42) adds
a null handle; the mxArray*&& constructor (line 51) adds a handle entrusted
with a raw pointer; copy construction (lines 59-77) adds a handle owning the
duplication result; move construction (line 83) adds a handle owning
other.release(), nulling the source; copy assignment (lines 98-139) replaces
the target's pointer by the duplication result unless source and target hold
the same pointer; move assignment (line 146) destroys the target's array and
takes other.release() unless both are the same object; release (line 604)
nulls the handle; the destructor (line 88) destroys the owned array, so the
destroyed pointer is owned by nobody afterwards (the slot is nulled). -/
def poolStep (pool : List Ptr) : ArrOp → List Ptr
  | .defaultCtor => pool ++ [0]
  | .adopt q => pool ++ [q]
  | .copyCtor r => pool ++ [r]
  | .moveCtor i => pool.set i 0 ++ [pool.getD i 0]
  | .copyAssign j i r => if pool.getD j 0 = pool.getD i 0 then pool else pool.set j r
  | .moveAssign j i => if j = i then pool else (pool.set j (pool.getD i 0)).set i 0
  | .release i => pool.set i 0
  | .dtor i => pool.set i 0

/-- Side condition supplied by the native allocator: a pointer entering the
pool from outside (an mxDuplicateArray result, or the raw pointer the
mxArray*&& constructor is entrusted with) is not currently owned by any live
Array. -/
def opFresh (pool : List Ptr) : ArrOp → Prop
  | .adopt q => q = 0 ∨ q ∉ pool
  | .copyCtor r => r = 0 ∨ r ∉ pool
  | .copyAssign _ _ r => r = 0 ∨ r ∉ pool
  | _ => True

/-- Exclusive ownership: two distinct live Array objects never own the same
non-null pointer. -/
def exclusive (pool : List Ptr) : Prop :=
  ∀ i, (hi : i < pool.length) → ∀ j, (hj : j < pool.length) →
    i ≠ j → pool[i] ≠ 0 → pool[i] ≠ pool[j]

instance (pool : List Ptr) : Decidable (exclusive pool) := by
  unfold exclusive; infer_instance

theorem exclusive_iff {pool : List Ptr} :
    exclusive pool ↔
      ∀ i j : Nat, i ≠ j → ∀ p : Ptr, p ≠ 0 → pool[i]? = some p → pool[j]? ≠ some p := by
  constructor
  · intro h i j hij p hp hi hj
    obtain ⟨hi', ei⟩ := List.getElem?_eq_some.mp hi
    obtain ⟨hj', ej⟩ := List.getElem?_eq_some.mp hj
    exact h i hi' j hj' hij (by rw [ei]; exact hp) (ei.trans ej.symm)
  · intro h i hi j hj hij h0 heq
    exact h i j hij pool[i] h0 (List.getElem?_eq_some.mpr ⟨hi, rfl⟩)
      (List.getElem?_eq_some.mpr ⟨hj, heq.symm⟩)

theorem exclusive_concat {pool : List Ptr} {q : Ptr} (hx : exclusive pool)
    (hq : q = 0 ∨ q ∉ pool) : exclusive (pool ++ [q]) := by
  rw [exclusive_iff] at hx ⊢
  intro i j hij p hp hi hj
  rw [List.getElem?_append] at hi hj
  by_cases hi' : i < pool.length
  · rw [if_pos hi'] at hi
    by_cases hj' : j < pool.length
    · rw [if_pos hj'] at hj
      exact hx i j hij p hp hi hj
    · rw [if_neg hj'] at hj
      have hj0 : j - pool.length = 0 ∧ q = p := by
        rcases Nat.eq_zero_or_pos (j - pool.length) with h | h
        · rw [h] at hj; simp at hj; exact ⟨h, hj⟩
        · rw [List.getElem?_eq_none] at hj
          · cases hj
          · simpa using Nat.one_le_iff_ne_zero.mpr (Nat.pos_iff_ne_zero.mp h)
      rcases hq with rfl | hnm
      · exact hp hj0.2.symm
      · exact hnm (hj0.2 ▸ List.getElem?_mem hi)
  · rw [if_neg hi'] at hi
    have hi0 : i - pool.length = 0 ∧ q = p := by
      rcases Nat.eq_zero_or_pos (i - pool.length) with h | h
      · rw [h] at hi; simp at hi; exact ⟨h, hi⟩
      · rw [List.getElem?_eq_none] at hi
        · cases hi
        · simpa using Nat.one_le_iff_ne_zero.mpr (Nat.pos_iff_ne_zero.mp h)
    by_cases hj' : j < pool.length
    · rw [if_pos hj'] at hj
      rcases hq with rfl | hnm
      · exact hp hi0.2.symm
      · exact hnm (hi0.2 ▸ List.getElem?_mem hj)
    · rw [if_neg hj'] at hj
      have hj0 : j - pool.length = 0 := by
        rcases Nat.eq_zero_or_pos (j - pool.length) with h | h
        · exact h
        · rw [List.getElem?_eq_none] at hj
          · cases hj
          · simpa using Nat.one_le_iff_ne_zero.mpr (Nat.pos_iff_ne_zero.mp h)
      exact hij (by omega)

theorem exclusive_set_zero {pool : List Ptr} (hx : exclusive pool) (i : Nat) :
    exclusive (pool.set i 0) := by
  rw [exclusive_iff] at hx ⊢
  intro a b hab p hp ha hb
  rw [List.getElem?_set] at ha hb
  by_cases hia : i = a
  · rw [if_pos hia] at ha
    split at ha
    · exact hp (Option.some.inj ha).symm
    · cases ha
  · rw [if_neg hia] at ha
    by_cases hib : i = b
    · rw [if_pos hib] at hb
      split at hb
      · exact hp (Option.some.inj hb).symm
      · cases hb
    · rw [if_neg hib] at hb
      exact hx a b hab p hp ha hb

theorem exclusive_set_fresh {pool : List Ptr} {r : Ptr} (hx : exclusive pool)
    (hr : r = 0 ∨ r ∉ pool) (j : Nat) : exclusive (pool.set j r) := by
  rw [exclusive_iff] at hx ⊢
  intro a b hab p hp ha hb
  rw [List.getElem?_set] at ha hb
  by_cases hja : j = a
  · subst hja
    rw [if_pos rfl] at ha
    split at ha
    · have hrp : r = p := Option.some.inj ha
      subst hrp
      rw [if_neg hab] at hb
      rcases hr with rfl | hnm
      · exact hp rfl
      · exact hnm (List.getElem?_mem hb)
    · cases ha
  · rw [if_neg hja] at ha
    by_cases hjb : j = b
    · subst hjb
      rw [if_pos rfl] at hb
      split at hb
      · have hrp : r = p := Option.some.inj hb
        subst hrp
        rcases hr with rfl | hnm
        · exact hp rfl
        · exact hnm (List.getElem?_mem ha)
      · cases hb
    · rw [if_neg hjb] at hb
      exact hx a b hab p hp ha hb

theorem exclusive_moveAssign {pool : List Ptr} (hx : exclusive pool) (j i : Nat) :
    exclusive (poolStep pool (.moveAssign j i)) := by
  by_cases hji : j = i
  · simpa [poolStep, hji] using hx
  · simp only [poolStep, if_neg hji]
    have hx' := exclusive_iff.mp hx
    rw [exclusive_iff]
    intro a b hab p hp ha hb
    rw [List.getElem?_set] at ha hb
    by_cases hia : i = a
    · rw [if_pos hia] at ha
      split at ha
      · exact hp (Option.some.inj ha).symm
      · cases ha
    · rw [if_neg hia] at ha
      rw [List.getElem?_set] at ha
      by_cases hib : i = b
      · rw [if_pos hib] at hb
        split at hb
        · exact hp (Option.some.inj hb).symm
        · cases hb
      · rw [if_neg hib] at hb
        rw [List.getElem?_set] at hb
        by_cases hja : j = a
        · subst hja
          rw [if_pos rfl] at ha
          split at ha
          · have hgp : pool.getD i 0 = p := Option.some.inj ha
            have hi' : i < pool.length := by
              by_contra hge
              rw [List.getD_eq_default _ _ (Nat.le_of_not_lt hge)] at hgp
              exact hp hgp.symm
            have hpi : pool[i] = p := by
              rw [List.getD_eq_getElem _ _ hi'] at hgp; exact hgp
            rw [if_neg hab] at hb
            exact hx' i b hib p hp (List.getElem?_eq_some.mpr ⟨hi', hpi⟩) hb
          · cases ha
        · rw [if_neg hja] at ha
          by_cases hjb : j = b
          · subst hjb
            rw [if_pos rfl] at hb
            split at hb
            · have hgp : pool.getD i 0 = p := Option.some.inj hb
              have hi' : i < pool.length := by
                by_contra hge
                rw [List.getD_eq_default _ _ (Nat.le_of_not_lt hge)] at hgp
                exact hp hgp.symm
              have hpi : pool[i] = p := by
                rw [List.getD_eq_getElem _ _ hi'] at hgp; exact hgp
              exact hx' a i (Ne.symm hia) p hp ha (List.getElem?_eq_some.mpr ⟨hi', hpi⟩)
            · cases hb
          · rw [if_neg hjb] at hb
            exact hx' a b hab p hp ha hb

theorem exclusive_preserved {pool : List Ptr} (op : ArrOp) (hx : exclusive pool)
    (hf : opFresh pool op) : exclusive (poolStep pool op) := by
  cases op with
  | defaultCtor => exact exclusive_concat hx (Or.inl rfl)
  | adopt q => exact exclusive_concat hx hf
  | copyCtor r => exact exclusive_concat hx hf
  | moveCtor i =>
    apply exclusive_concat (exclusive_set_zero hx i)
    by_cases hi' : i < pool.length
    · rcases eq_or_ne (pool.getD i 0) 0 with h | h
      · exact Or.inl h
      · right
        intro hmem
        obtain ⟨b, hb, hbe⟩ := List.mem_iff_getElem.mp hmem
        rw [List.getElem_set] at hbe
        have hgd : pool.getD i 0 = pool[i] := List.getD_eq_getElem _ _ hi'
        by_cases hib : i = b
        · rw [if_pos hib] at hbe
          exact h hbe.symm
        · rw [if_neg hib] at hbe
          have hb' : b < pool.length := by simpa using hb
          exact hx i hi' b hb' hib (by rw [← hgd]; exact h) (by rw [← hgd, hbe])
    · rw [List.getD_eq_default _ _ (Nat.le_of_not_lt hi')]
      exact Or.inl rfl
  | copyAssign j i r =>
    simp only [poolStep]
    split
    · exact hx
    · exact exclusive_set_fresh hx hf j
  | moveAssign j i => exact exclusive_moveAssign hx j i
  | release i => exact exclusive_set_zero hx i
  | dtor i => exact exclusive_set_zero hx i

/-- Claim C9: after move construction, move assignment, or release(), the
moved-from or released Array holds the null pointer (isValid() false), while
the transferred pointer is held by the move target; a null handle's later
destruction performs no non-trivial native destroy; and every Array
operation preserves the invariant that a valid handle owns its mxArray
exclusively (given that pointers entering the pool from the native allocator
or as entrusted raw pointers are not already owned). -/
theorem c9_moved_from_null_exclusive (pool : List Ptr) (i j : Nat) :
    (i < pool.length → (poolStep pool (.moveCtor i))[i]? = some 0) ∧
    ((poolStep pool (.moveCtor i))[pool.length]? = some (pool.getD i 0)) ∧
    (j ≠ i → i < pool.length → (poolStep pool (.moveAssign j i))[i]? = some 0) ∧
    (j ≠ i → j < pool.length → i ≠ j →
      (poolStep pool (.moveAssign j i))[j]? = some (pool.getD i 0)) ∧
    (i < pool.length → (poolStep pool (.release i))[i]? = some 0) ∧
    destroyedPtrs [.destroy 0] = 0 ∧
    (∀ op, exclusive pool → opFresh pool op → exclusive (poolStep pool op)) := by
  refine ⟨?_, ?_, ?_, ?_, ?_, by simp, fun op hx hf => exclusive_preserved op hx hf⟩
  · intro hi
    simp [poolStep, List.getElem?_append, List.getElem?_set, hi]
  · simp [poolStep, List.getElem?_append]
  · intro hji hi
    simp [poolStep, if_neg hji, List.getElem?_set, hi]
  · intro hji hj hij
    simp [poolStep, if_neg hji, List.getElem?_set, hj, hij]
  · intro hi
    simp [poolStep, List.getElem?_set, hi]

/-- Witness for C9 on the concrete pool [1, 2]: moving from object 0 nulls
it, and a release step preserves exclusive ownership. -/
theorem c9_moved_from_null_exclusive_witness :
    (0 < ([1, 2] : List Ptr).length ∧ (poolStep [1, 2] (.moveCtor 0))[0]? = some 0) ∧
    (exclusive [1, 2] ∧ opFresh [1, 2] (.release 0) ∧
      exclusive (poolStep [1, 2] (.release 0))) :=
  ⟨⟨by decide, (c9_moved_from_null_exclusive [1, 2] 0 1).1 (by decide)⟩,
    ⟨by decide, trivial,
      (c9_moved_from_null_exclusive [1, 2] 0 1).2.2.2.2.2.2 (.release 0) (by decide) trivial⟩⟩

/-! ## makeObjectArray (src/unnamed/part_000) -/

/-- Array::release (Array.hpp line 604): std::exchange(mArray, nullptr);
the first component is the returned old pointer, the second the handle
afterwards. -/
def MxArray.releasePair (a : MxArray) : Ptr × MxArray :=
  (a.mArray, ⟨0⟩)

/-- Array move constructor (Array.hpp line 83): mArray{other.release()};
the first component is the newly constructed object, the second the source
after the move. -/
def MxArray.moveCtorPair (a : MxArray) : MxArray × MxArray :=
  (⟨a.mArray⟩, ⟨0⟩)

/-- The native entry point used by makeObjectArray; the Int is the status
code of mxSetClassName (nonzero = error). -/
structure ObjEnv where
  mxSetClassName : Ptr → String → Int

/-- makeObjectArray (src/unnamed/part_000, lines 40-58).  StructArray (not
under src/) derives from Array; only isValid(), release() and the Array move
constructor are used here, so the source handle is an MxArray.  A none
className models a null const char*.  Note the source order: mxSetClassName
receives srcArray.release(), which nulls srcArray, and the returned value is
then Array{std::move(srcArray)}, moving from the already-nulled handle. -/
def makeObjectArray (env : ObjEnv) (srcArray : MxArray) (className : Option String) :
    Except Exn MxArray :=
  if !srcArray.isValid then .error ⟨none, "invalid source array"⟩
  else
    match className with
    | none => .error ⟨none, "invalid class name"⟩
    | some name =>
      let rel := srcArray.releasePair
      if env.mxSetClassName rel.1 name ≠ 0 then .error ⟨none, "failed to set class name"⟩
      else .ok rel.2.moveCtorPair.1

/-- Claim C3, evaluated: the three error cases throw as claimed, but in the
success case (valid source, non-null class name, mxSetClassName returning 0)
the function returns an Array holding the null pointer — an invalid handle
that owns nothing — because release() was already called on the source
before the final move, so the renamed native array is leaked, contradicting
the claimed "valid Array that owns the source struct array". -/
theorem c3_makeObjectArray_returns_invalid :
    makeObjectArray ⟨fun _ _ => 0⟩ ⟨1⟩ (some "myclass") = .ok ⟨0⟩ ∧
    (MxArray.mk 0).isValid = false ∧
    makeObjectArray ⟨fun _ _ => 0⟩ ⟨0⟩ (some "myclass") =
      .error ⟨none, "invalid source array"⟩ ∧
    makeObjectArray ⟨fun _ _ => 0⟩ ⟨1⟩ none = .error ⟨none, "invalid class name"⟩ ∧
    makeObjectArray ⟨fun _ _ => 1⟩ ⟨1⟩ (some "myclass") =
      .error ⟨none, "failed to set class name"⟩ :=
  ⟨rfl, rfl, rfl, rfl, rfl⟩

/-! ## toAscii (src/include/matlabw/mx/CharArrayRef.hpp) -/

/-- The native entry points used by toAscii(CharArrayCref).  strLen models
std::char_traits<char16_t>::length applied to the array's data pointer;
mxGetString takes the array pointer and the buffer size and yields the
converted contents, none modelling a nonzero (failure) status. -/
structure CharEnv where
  mxGetNumberOfDimensions : Ptr → Nat
  mxGetM : Ptr → Nat
  strLen : Ptr → Nat
  mxGetString : Ptr → Nat → Option String

/-- CharArrayCref (CharArrayRef.hpp line 105): a non-owning reference to a
char array (its base classes TypedArrayCref and ArrayCref are not under
src/; only the held pointer matters here). -/
structure CharArrayCref where
  ptr : Ptr
deriving DecidableEq, Repr

/-- CharArrayCref::isSingleString (CharArrayRef.hpp line 121):
(getRank() <= 2) && (getDimM() == 1), where getRank and getDimM forward to
the native introspection of the held pointer. -/
def CharArrayCref.isSingleString (env : CharEnv) (a : CharArrayCref) : Bool :=
  (env.mxGetNumberOfDimensions a.ptr ≤ 2) && (env.mxGetM a.ptr == 1)

/-- toAscii(CharArrayCref) (CharArrayRef.hpp lines 157-176), translated
verbatim: it throws "Input must be a single string.\n" when
array.isSingleString() holds, and otherwise converts, throwing on a nonzero
mxGetString status. -/
def toAscii (env : CharEnv) (array : CharArrayCref) : Except Exn String :=
  if array.isSingleString env then
    .error ⟨some "matlabw:mx:toAscii", "Input must be a single string.\n"⟩
  else
    match env.mxGetString array.ptr (env.strLen array.ptr + 1) with
    | none =>
      .error ⟨some "matlabw:mx:toAscii", "Failed to convert char16_t array to string.\n"⟩
    | some str => .ok str

/-- Claim C4, evaluated: on a 1-by-3 char array (rank 2, one row — a single
string) toAscii throws the very message "Input must be a single string.\n",
and on a 2-row char array (not a single string) it proceeds and returns the
conversion: the guard is inverted with respect to both the claim and the
function's own error message. -/
theorem c4_toAscii_guard_inverted :
    CharArrayCref.isSingleString ⟨fun _ => 2, fun _ => 1, fun _ => 3, fun _ _ => some "abc"⟩
      ⟨5⟩ = true ∧
    toAscii ⟨fun _ => 2, fun _ => 1, fun _ => 3, fun _ _ => some "abc"⟩ ⟨5⟩ =
      .error ⟨some "matlabw:mx:toAscii", "Input must be a single string.\n"⟩ ∧
    CharArrayCref.isSingleString ⟨fun _ => 2, fun _ => 2, fun _ => 3, fun _ _ => some "abc"⟩
      ⟨5⟩ = false ∧
    toAscii ⟨fun _ => 2, fun _ => 2, fun _ => 3, fun _ _ => some "abc"⟩ ⟨5⟩ = .ok "abc" :=
  ⟨rfl, rfl, rfl, rfl⟩

/-! ## Workspace variables (src/include/matlabw/mex/variable.hpp) -/

/-- mex::Workspace (variable.hpp line 33). -/
inductive Workspace
  | base
  | global
  | caller
deriving DecidableEq, Repr

/-- getWorkspaceName (variable.hpp line 45).  The C++ default branch that
throws "invalid workspace" is unreachable: the enumeration has exactly the
three listed values, and the Lean match is total over them. -/
def getWorkspaceName : Workspace → String
  | .base => "base"
  | .global => "global"
  | .caller => "caller"

/-- mx::ArrayCref (ArrayRef.hpp, not under src/): a non-owning reference to
an mxArray, exposing get(). -/
structure ArrayCref where
  ptr : Ptr
deriving DecidableEq, Repr

/-- mx::ArrayRef (ArrayRef.hpp, not under src/): a non-owning mutable
reference to an mxArray. -/
structure ArrayRef where
  ptr : Ptr
deriving DecidableEq, Repr

/-- The native mex entry points used by variable.hpp: mexPutVariable yields
a status code (nonzero = error), the two lookups yield an array pointer
(0 = variable not found). -/
structure MexEnv where
  mexPutVariable : String → String → Ptr → Int
  mexGetVariable : String → String → Ptr
  mexGetVariablePtr : String → String → Ptr

/-- putVariable (variable.hpp lines 66-79).  Besides the result, the list of
(workspace name, variable name, array pointer) triples passed to
mexPutVariable is returned, so the forwarding itself is observable. -/
def putVariable (env : MexEnv) (workspace : Workspace) (name : Option String)
    (value : ArrayCref) : Except Exn Unit × List (String × String × Ptr) :=
  match name with
  | none => (.error ⟨none, "invalid variable name"⟩, [])
  | some n =>
    let workspaceName := getWorkspaceName workspace
    if env.mexPutVariable workspaceName n value.ptr ≠ 0 then
      (.error ⟨none, "failed to put variable"⟩, [(workspaceName, n, value.ptr)])
    else (.ok (), [(workspaceName, n, value.ptr)])

/-- getVariableCref (variable.hpp lines 98-115). -/
def getVariableCref (env : MexEnv) (workspace : Workspace) (name : Option String) :
    Except Exn (Option ArrayCref) :=
  match name with
  | none => .error ⟨none, "invalid variable name"⟩
  | some n =>
    let array := env.mexGetVariablePtr (getWorkspaceName workspace) n
    if array = 0 then .ok none
    else .ok (some ⟨array⟩)

/-- getVariable (variable.hpp lines 134-151); the found pointer is adopted
by an owning mx::Array via Array{std::move(array)}. -/
def getVariable (env : MexEnv) (workspace : Workspace) (name : Option String) :
    Except Exn (Option MxArray) :=
  match name with
  | none => .error ⟨none, "invalid variable name"⟩
  | some n =>
    let array := env.mexGetVariable (getWorkspaceName workspace) n
    if array = 0 then .ok none
    else .ok (some ⟨array⟩)

/-- Claim C5: for every workspace and name, getVariable and getVariableCref
throw on a null name, return none exactly when the native lookup returns a
null pointer, and otherwise return the found variable — getVariable as an
owning mx::Array adopting the mexGetVariable copy, getVariableCref as a
non-owning mx::ArrayCref around the mexGetVariablePtr pointer. -/
theorem c5_getVariable_lookup (env : MexEnv) (ws : Workspace) (name : Option String) :
    (name = none →
      getVariable env ws name = .error ⟨none, "invalid variable name"⟩ ∧
      getVariableCref env ws name = .error ⟨none, "invalid variable name"⟩) ∧
    (∀ n, name = some n →
      (getVariable env ws name = .ok none ↔
        env.mexGetVariable (getWorkspaceName ws) n = 0) ∧
      (getVariableCref env ws name = .ok none ↔
        env.mexGetVariablePtr (getWorkspaceName ws) n = 0) ∧
      (env.mexGetVariable (getWorkspaceName ws) n ≠ 0 →
        getVariable env ws name =
          .ok (some ⟨env.mexGetVariable (getWorkspaceName ws) n⟩)) ∧
      (env.mexGetVariablePtr (getWorkspaceName ws) n ≠ 0 →
        getVariableCref env ws name =
          .ok (some ⟨env.mexGetVariablePtr (getWorkspaceName ws) n⟩))) := by
  constructor
  · rintro rfl
    exact ⟨rfl, rfl⟩
  · rintro n rfl
    refine ⟨?_, ?_, ?_, ?_⟩
    · by_cases h : env.mexGetVariable (getWorkspaceName ws) n = 0 <;>
        simp [getVariable, h]
    · by_cases h : env.mexGetVariablePtr (getWorkspaceName ws) n = 0 <;>
        simp [getVariableCref, h]
    · intro h; simp [getVariable, h]
    · intro h; simp [getVariableCref, h]

/-- A concrete mex environment: putting succeeds, mexGetVariable finds
pointer 9, mexGetVariablePtr finds nothing. -/
def testMexEnv : MexEnv where
  mexPutVariable := fun _ _ _ => 0
  mexGetVariable := fun _ _ => 9
  mexGetVariablePtr := fun _ _ => 0

/-- Witness for C5 at the concrete environment. -/
theorem c5_getVariable_lookup_witness :
    getVariable testMexEnv .base none = .error ⟨none, "invalid variable name"⟩ ∧
    getVariable testMexEnv .base (some "x") = .ok (some ⟨9⟩) ∧
    getVariableCref testMexEnv .base (some "x") = .ok none :=
  ⟨((c5_getVariable_lookup testMexEnv .base none).1 rfl).1,
    (((c5_getVariable_lookup testMexEnv .base (some "x")).2 "x" rfl).2.2.1 (by decide)),
    (((c5_getVariable_lookup testMexEnv .base (some "x")).2 "x" rfl).2.1.mpr rfl)⟩

/-- Claim C6: putVariable throws when the name is null (without calling the
native function) or when mexPutVariable returns a nonzero status, and
otherwise returns normally; in both non-null cases it makes exactly one
forwarding call passing the workspace name ("base"/"global"/"caller"), the
variable name, and the array pointer. -/
theorem c6_putVariable_forwarding (env : MexEnv) (ws : Workspace) (name : Option String)
    (value : ArrayCref) :
    (name = none →
      putVariable env ws name value = (.error ⟨none, "invalid variable name"⟩, [])) ∧
    (∀ n, name = some n →
      (putVariable env ws name value).2 = [(getWorkspaceName ws, n, value.ptr)] ∧
      (env.mexPutVariable (getWorkspaceName ws) n value.ptr = 0 →
        (putVariable env ws name value).1 = .ok ()) ∧
      (env.mexPutVariable (getWorkspaceName ws) n value.ptr ≠ 0 →
        (putVariable env ws name value).1 = .error ⟨none, "failed to put variable"⟩)) ∧
    (getWorkspaceName .base = "base" ∧ getWorkspaceName .global = "global" ∧
      getWorkspaceName .caller = "caller") := by
  refine ⟨?_, ?_, rfl, rfl, rfl⟩
  · rintro rfl
    rfl
  · rintro n rfl
    refine ⟨?_, ?_, ?_⟩
    · by_cases h : env.mexPutVariable (getWorkspaceName ws) n value.ptr = 0 <;>
        simp [putVariable, h]
    · intro h; simp [putVariable, h]
    · intro h; simp [putVariable, h]

/-- Witness for C6 at the concrete environment. -/
theorem c6_putVariable_forwarding_witness :
    putVariable testMexEnv .caller none ⟨4⟩ = (.error ⟨none, "invalid variable name"⟩, []) ∧
    (putVariable testMexEnv .caller (some "y") ⟨4⟩).2 = [("caller", "y", 4)] ∧
    (putVariable testMexEnv .caller (some "y") ⟨4⟩).1 = .ok () :=
  ⟨(c6_putVariable_forwarding testMexEnv .caller none ⟨4⟩).1 rfl,
    ((c6_putVariable_forwarding testMexEnv .caller (some "y") ⟨4⟩).2.1 "y" rfl).1,
    ((c6_putVariable_forwarding testMexEnv .caller (some "y") ⟨4⟩).2.1 "y" rfl).2.1 rfl⟩

/-! ## Struct field access (src/include/matlabw/mx/StructArrayRef.hpp) -/

/-- mx::FieldIndex (common.hpp, not under src/); its shape is determined by
the src usage in getFieldIndex (StructArrayRef.hpp line 335): the invalid
value corresponds to the -1 returned by mxGetFieldNumber, every other value
is the cast of a non-negative field number. -/
inductive FieldIndex
  | invalid
  | idx (n : Nat)
deriving DecidableEq, Repr

/-- StructArrayRef (StructArrayRef.hpp line 36): a non-owning handle to a
struct array. -/
structure StructArrayRef where
  ptr : Ptr
deriving DecidableEq, Repr

/-- The native entry points used by StructArrayRef: the field count
(mxGetNumberOfFields), the field lookup by struct index and field number
(mxGetFieldByNumber, 0 = null field), and the field number by name
(mxGetFieldNumber, -1 = not found). -/
structure StructEnv where
  mxGetNumberOfFields : Ptr → Nat
  mxGetFieldByNumber : Ptr → Nat → Nat → Ptr
  mxGetFieldNumber : Ptr → String → Int

/-- StructArrayRef::getFieldCount (StructArrayRef.hpp line 308). -/
def StructArrayRef.getFieldCount (env : StructEnv) (s : StructArrayRef) : Nat :=
  env.mxGetNumberOfFields s.ptr

/-- StructArrayRef::getFieldIndex (StructArrayRef.hpp line 335): -1 maps to
FieldIndex::invalid, any other (non-negative) result is cast to a
FieldIndex. -/
def StructArrayRef.getFieldIndex (env : StructEnv) (s : StructArrayRef)
    (fieldName : String) : FieldIndex :=
  let fieldIdx := env.mxGetFieldNumber s.ptr fieldName
  if fieldIdx = -1 then .invalid else .idx fieldIdx.toNat

/-- StructArrayRef::getField(i, fieldIndex) (StructArrayRef.hpp lines
96-116; the const overload at line 166 and the StructArrayCref one at line
485 have the same body up to constness of the returned reference). -/
def StructArrayRef.getField (env : StructEnv) (s : StructArrayRef) (i : Nat)
    (fieldIndex : FieldIndex) : Except Exn (Option ArrayRef) :=
  match fieldIndex with
  | .invalid => .ok none
  | .idx n =>
    if n ≥ s.getFieldCount env then .error ⟨none, "field index out of range"⟩
    else
      let field := env.mxGetFieldByNumber s.ptr i n
      if field = 0 then .ok none
      else .ok (some ⟨field⟩)

/-- StructArrayRef::getField(i, fieldName) (StructArrayRef.hpp line 54):
getField(i, getFieldIndex(fieldName)). -/
def StructArrayRef.getFieldNamed (env : StructEnv) (s : StructArrayRef) (i : Nat)
    (fieldName : String) : Except Exn (Option ArrayRef) :=
  s.getField env i (s.getFieldIndex env fieldName)

/-- Claim C7: getField(i, fieldIndex) returns none when fieldIndex is
FieldIndex::invalid (a name that was not found) or when mxGetFieldByNumber
returns null; throws when the index is valid but not below getFieldCount();
and otherwise returns a reference to the field array.  The name-based
overload forwards through getFieldIndex, which yields invalid exactly on a
-1 from mxGetFieldNumber. -/
theorem c7_getField_cases (env : StructEnv) (s : StructArrayRef) (i : Nat)
    (fi : FieldIndex) (fieldName : String) :
    (fi = .invalid → s.getField env i fi = .ok none) ∧
    (∀ n, fi = .idx n → n ≥ s.getFieldCount env →
      s.getField env i fi = .error ⟨none, "field index out of range"⟩) ∧
    (∀ n, fi = .idx n → n < s.getFieldCount env →
      env.mxGetFieldByNumber s.ptr i n = 0 → s.getField env i fi = .ok none) ∧
    (∀ n, fi = .idx n → n < s.getFieldCount env →
      env.mxGetFieldByNumber s.ptr i n ≠ 0 →
      s.getField env i fi = .ok (some ⟨env.mxGetFieldByNumber s.ptr i n⟩)) ∧
    (env.mxGetFieldNumber s.ptr fieldName = -1 →
      s.getFieldIndex env fieldName = .invalid) ∧
    s.getFieldNamed env i fieldName = s.getField env i (s.getFieldIndex env fieldName) := by
  refine ⟨?_, ?_, ?_, ?_, ?_, rfl⟩
  · rintro rfl; rfl
  · rintro n rfl h
    simp [StructArrayRef.getField, h]
  · rintro n rfl h h0
    simp [StructArrayRef.getField, Nat.not_le_of_lt h, h0]
  · rintro n rfl h h0
    simp [StructArrayRef.getField, Nat.not_le_of_lt h, h0]
  · intro h
    simp [StructArrayRef.getFieldIndex, h]

/-- Witness for C7 on a struct array with 3 fields whose field 1 holds
pointer 7 and whose field 2 is unset. -/
theorem c7_getField_cases_witness :
    StructArrayRef.getField ⟨fun _ => 3, fun _ _ n => if n = 1 then 7 else 0, fun _ _ => 1⟩
      ⟨4⟩ 0 .invalid = .ok none ∧
    StructArrayRef.getField ⟨fun _ => 3, fun _ _ n => if n = 1 then 7 else 0, fun _ _ => 1⟩
      ⟨4⟩ 0 (.idx 5) = .error ⟨none, "field index out of range"⟩ ∧
    StructArrayRef.getField ⟨fun _ => 3, fun _ _ n => if n = 1 then 7 else 0, fun _ _ => 1⟩
      ⟨4⟩ 0 (.idx 2) = .ok none ∧
    StructArrayRef.getField ⟨fun _ => 3, fun _ _ n => if n = 1 then 7 else 0, fun _ _ => 1⟩
      ⟨4⟩ 0 (.idx 1) = .ok (some ⟨7⟩) :=
  ⟨(c7_getField_cases _ ⟨4⟩ 0 .invalid "f").1 rfl,
    ((c7_getField_cases ⟨fun _ => 3, fun _ _ n => if n = 1 then 7 else 0, fun _ _ => 1⟩
      ⟨4⟩ 0 (.idx 5) "f").2.1 5 rfl (by decide)),
    ((c7_getField_cases ⟨fun _ => 3, fun _ _ n => if n = 1 then 7 else 0, fun _ _ => 1⟩
      ⟨4⟩ 0 (.idx 2) "f").2.2.1 2 rfl (by decide) (by decide)),
    ((c7_getField_cases ⟨fun _ => 3, fun _ _ n => if n = 1 then 7 else 0, fun _ _ => 1⟩
      ⟨4⟩ 0 (.idx 1) "f").2.2.2.1 1 rfl (by decide) (by decide))⟩

/-! ## Char array construction from a UTF-16 string (propery.hpp, second
header: CharArray.hpp) -/

/-- A MATLAB char array, concrete for the round-trip claim: its dimension
vector and its char16_t code units. -/
structure CharArrayV where
  dims : List Nat
  data : List Nat
deriving DecidableEq, Repr

/-- mxCreateCharArray (native ABI, modelled from MATLAB's documented
semantics: an N-D char mxArray of the given dimensions, zero-initialised;
fewer than 2 dimensions are padded to two dimensions with extent 1). -/
def mxCreateCharArray (dims : List Nat) : CharArrayV :=
  let d := if dims.length < 2 then dims ++ List.replicate (2 - dims.length) 1 else dims
  ⟨d, List.replicate d.prod 0⟩

/-- makeCharArray(std::u16string_view) (CharArray.hpp line 328): creates a
char array with dimension vector {str.size() + 1} and std::copy-s the string
into its first str.size() elements. -/
def makeCharArray (str : List Nat) : CharArrayV :=
  let array := mxCreateCharArray [str.length + 1]
  { array with data := str ++ array.data.drop str.length }

/-- mxGetNumberOfDimensions on the concrete char array. -/
def CharArrayV.getRank (a : CharArrayV) : Nat :=
  a.dims.length

/-- mxGetM on the concrete char array: the first dimension. -/
def CharArrayV.getDimM (a : CharArrayV) : Nat :=
  a.dims.headD 0

/-- mxGetN on the concrete char array: the product of the remaining
dimensions. -/
def CharArrayV.getDimN (a : CharArrayV) : Nat :=
  (a.dims.drop 1).prod

/-- mxGetNumberOfElements on the concrete char array. -/
def CharArrayV.getSize (a : CharArrayV) : Nat :=
  a.dims.prod

/-- CharArray::isSingleString (CharArray.hpp line 226):
(getRank() <= 2) && (getDimM() == 1). -/
def CharArrayV.isSingleString (a : CharArrayV) : Bool :=
  (a.getRank ≤ 2) && (a.getDimM == 1)

/-- CharArray::operator std::u16string_view (CharArray.hpp line 244): throws
unless isSingleString(), else the view {getData(), getDimN()}. -/
def CharArrayV.toU16View (a : CharArrayV) : Except Exn (List Nat) :=
  if !a.isSingleString then
    .error ⟨some "matlabw:mx:CharArray:operatorU16StringView", "array must be a single string"⟩
  else .ok (a.data.take a.getDimN)

/-- Claim C10, evaluated: makeCharArray over a UTF-16 string of length n
builds an (n+1)-by-1 char array — one trailing zero element too many, in
column rather than single-string row shape — so its element count is n + 1,
not n; for the one-character string "a" it is not a single string and
converting it back throws, and even for the empty string the round trip
yields the one zero character instead of the empty string. -/
theorem c10_makeCharArray_no_roundtrip (s : List Nat) :
    (makeCharArray s).dims = [s.length + 1, 1] ∧
    (makeCharArray s).getSize = s.length + 1 ∧
    (makeCharArray s).data = s ++ [0] ∧
    (makeCharArray [97]).isSingleString = false ∧
    (makeCharArray [97]).toU16View =
      .error ⟨some "matlabw:mx:CharArray:operatorU16StringView",
        "array must be a single string"⟩ ∧
    (makeCharArray []).isSingleString = true ∧
    (makeCharArray []).toU16View = .ok [0] := by
  refine ⟨?_, ?_, ?_, rfl, rfl, rfl, rfl⟩
  · simp [makeCharArray, mxCreateCharArray]
  · simp [makeCharArray, mxCreateCharArray, CharArrayV.getSize]
  · simp [makeCharArray, mxCreateCharArray]

end MatlabW
